import Mathlib

/-!
# pritunl-auth, package `oauth` (`oauth/oauth2.go`)

Shallow embedding of the OAuth2 adapter: the provider configuration `Oauth2`
with `Config`, `Request`, `Authorize`, `NewClient`, and the per-account client
`Oauth2Client` with `Check` and `Refresh`.

Conventions of the embedding.

* A Go `error` result is an `Option Error`; `none` is Go's `nil`.
* A Go pointer result that may be `nil` (`acct *account.Account`) is an `Option`.
* A run-time panic (calling through the unset `o.conf`) is the outer `none` of
  `Request` and `Authorize`.
* Strings are Go strings, `time.Time` is an integer count with `0` the zero value.
* The persistence layer, the account record, the pending-authorization record and
  the error translation live in packages whose files are not part of `oauth2.go`;
  they are modelled from the specification and marked as such.
* The `golang.org/x/oauth2` library and the random generator are outside the
  repository; they are parameters (`Lib`, the `rand` argument of `Request`).
* Calls that leave the process are recorded: `World.exchanges` lists the codes
  handed to the provider's code exchange, `World.commits` the `CommitFields`
  calls, `HttpClient.calls` counts the `Token()` calls on a client's source.
-/

namespace Oauth

/-- Go `time.Time`; `0` stands for the zero value. -/
abbrev Time := Int

/-- Non-nil Go `error` values that can flow through `oauth2.go`.
`ErrNotFound` and `ErrDuplicateKey` are the persistence driver's native errors,
`Native` any other error value born outside this package (provider, transport),
`Wrap` is `errors.Wrap(err, msg)`, `UnknownError` is `&errortypes.UnknownError{err}`,
and `NotFoundError` / `PersistenceError` are the two kinds the error translation
produces. -/
inductive Error where
  | ErrNotFound : Error
  | ErrDuplicateKey : Error
  | Native (msg : String) : Error
  | Wrap (err : Error) (msg : String) : Error
  | UnknownError (err : Error) : Error
  | NotFoundError (err : Error) : Error
  | PersistenceError (err : Error) : Error
  deriving DecidableEq, Repr

/-- The library's `oauth2.Token`. -/
structure OAuth2Token where
  AccessToken : String
  TokenType : String
  RefreshToken : String
  Expiry : Time
  deriving DecidableEq, Repr

/-- Go zero value of `oauth2.Token`. -/
def OAuth2Token.zero : OAuth2Token :=
  { AccessToken := "", TokenType := "", RefreshToken := "", Expiry := 0 }

/-- The library's `oauth2.Config` (with its `Endpoint` flattened). -/
structure OAuth2Config where
  ClientID : String
  ClientSecret : String
  RedirectURL : String
  Scopes : List String
  AuthURL : String
  TokenURL : String
  deriving DecidableEq, Repr

/-- The provider configuration `Oauth2` (`oauth2.go`, lines 16-25).
`Typ` is the Go field `Type`; `conf` is `nil` (`none`) until `Config` has run. -/
structure Oauth2 where
  Typ : String
  ClientId : String
  ClientSecret : String
  CallbackUrl : String
  AuthUrl : String
  TokenUrl : String
  Scopes : List String
  conf : Option OAuth2Config
  deriving DecidableEq, Repr

/-- Modelled from the spec: the `Token` record of package `oauth`
(PendingAuthorization), whose declaration is in a file that is not part of
`oauth2.go`. The six fields are the ones the struct literal in `Request` sets;
`Typ` is the Go field `Type`. -/
structure Token where
  Id : String
  RemoteCallback : String
  RemoteState : String
  RemoteSecret : String
  Typ : String
  Version : Int
  deriving DecidableEq, Repr

/-- Go zero value of `Token` (`&Token{}`). -/
def Token.zero : Token :=
  { Id := "", RemoteCallback := "", RemoteState := "", RemoteSecret := "",
    Typ := "", Version := 0 }

/-- Modelled from the spec: `account.Account`, declared in package `account`.
Only the fields `oauth2.go` reads or writes are kept; `Typ` is the Go field
`Type`, and an empty `Id` is an account with no assigned identity. -/
structure Account where
  Id : String
  Typ : String
  Oauth2AccTokn : String
  Oauth2RefTokn : String
  Oauth2Exp : Time
  deriving DecidableEq, Repr

/-- Modelled from the spec: the persistence layer `database.Database`, a keyed
store with one collection of pending authorizations (`db.Tokens()`) and one of
accounts (`db.Accounts()`), each keyed by `Id`. -/
structure Database where
  tokens : List Token
  accounts : List Account
  deriving DecidableEq, Repr

/-- Modelled from the spec: `insert(record)` on the tokens collection. The
collection is keyed by id, so a record whose id is already stored cannot be
stored again and the driver's duplicate-key error comes back; otherwise the
record is added. -/
def Database.Insert (db : Database) (tokn : Token) : Option Error × Database :=
  if db.tokens.any (fun t => t.Id == tokn.Id) then
    (some Error.ErrDuplicateKey, db)
  else
    (none, { db with tokens := db.tokens ++ [tokn] })

/-- Modelled from the spec: `findOneById(id) → record | not-found` on the tokens
collection. On a hit the record is decoded into the destination, on a miss the
destination is left as it was and the driver's not-found error comes back. The
store is not written. -/
def Database.FindOneId (db : Database) (id : String) (dest : Token) :
    Option Error × Token :=
  match db.tokens.find? (fun t => t.Id == id) with
  | some t => (none, t)
  | none => (some Error.ErrNotFound, dest)

/-- Modelled from the spec: one named field of `src` written over `dst`, the
step of a partial update. The three token columns carry the names used in
`oauth2.go`, the provider type the name the account's field list gives it
(`type`); the key `Id` is never rewritten and an unknown name leaves `dst` as
it is. -/
def Account.setField (src dst : Account) (field : String) : Account :=
  if field = "oauth2_acc_tokn" then { dst with Oauth2AccTokn := src.Oauth2AccTokn }
  else if field = "oauth2_ref_tokn" then { dst with Oauth2RefTokn := src.Oauth2RefTokn }
  else if field = "oauth2_exp" then { dst with Oauth2Exp := src.Oauth2Exp }
  else if field = "type" then { dst with Typ := src.Typ }
  else dst

/-- Modelled from the spec: the stored accounts after a partial update of the
one keyed `id` (the first one, should the list hold several). -/
def Account.commitInto (id : String) (acct : Account) (fields : List String) :
    List Account → List Account
  | [] => []
  | a :: rest =>
    if a.Id = id then fields.foldl (fun d f => Account.setField acct d f) a :: rest
    else a :: Account.commitInto id acct fields rest

/-- Modelled from the spec: `commitFields(id, record, fieldNames)`, the partial
update on the accounts collection. The named fields of the stored account keyed
`id` are overwritten from `acct`; with no account stored under `id` the driver's
not-found error comes back and nothing is written. -/
def Database.CommitFields (db : Database) (id : String) (acct : Account)
    (fields : List String) : Option Error × Database :=
  if db.accounts.any (fun a => a.Id == id) then
    (none, { db with accounts := Account.commitInto id acct fields db.accounts })
  else
    (some Error.ErrNotFound, db)

/-- Modelled from the spec: `database.ParseError`, the translation of the
persistence layer's native errors into the module's error kinds. A not-found
becomes `NotFoundError`, every other failure a `PersistenceError` wrapping the
native error. -/
def ParseError (err : Error) : Error :=
  match err with
  | Error.ErrNotFound => Error.NotFoundError Error.ErrNotFound
  | e => Error.PersistenceError e

/-- The part of `golang.org/x/oauth2` the package calls, as parameters.
* `AuthCodeURL cfg state` is `cfg.AuthCodeURL(state, AccessTypeOffline, ApprovalForce)`.
* `Exchange cfg earlier code` is `cfg.Exchange(NoContext, code)` when the codes
  in `earlier` have been exchanged before.
* `TokenSource conf tokn n` is what the `n`-th `Token()` call answers on the
  source of the transport built by `conf.Client(NoContext, tokn)`. -/
structure Lib where
  AuthCodeURL : OAuth2Config → String → String
  Exchange : OAuth2Config → List String → String → Except Error OAuth2Token
  TokenSource : Option OAuth2Config → OAuth2Token → Nat → Except Error OAuth2Token

/-- The `*http.Client` of an `Oauth2Client`, reduced to the token source of its
transport and the number of `Token()` calls made on it so far. -/
structure HttpClient where
  Source : Nat → Except Error OAuth2Token
  calls : Nat

/-- Everything outside the process that `oauth2.go` touches: the database, the
codes handed to the provider's code exchange (oldest first), and the
`CommitFields` calls made (id and field names, oldest first). -/
structure World where
  db : Database
  exchanges : List String
  commits : List (String × List String)
  deriving DecidableEq, Repr

/-- `func (o *Oauth2) Config()` (lines 27-38). -/
def Oauth2.Config (o : Oauth2) : Oauth2 :=
  { o with
    conf := some
      { ClientID := o.ClientId
        ClientSecret := o.ClientSecret
        RedirectURL := o.CallbackUrl
        Scopes := o.Scopes
        AuthURL := o.AuthUrl
        TokenURL := o.TokenUrl } }

/-- Results of `Request`: `(url string, err error)`. -/
structure RequestResult where
  url : String
  err : Option Error
  deriving DecidableEq, Repr

/-- `func (o *Oauth2) Request(...)` (lines 40-70). `rand` is the value of
`utils.RandStr(64)`. The named result `err` is still `nil` at line 48, so that
branch is never taken. The outer `none` is the panic of calling `AuthCodeURL`
through a nil `o.conf`. -/
def Oauth2.Request (lib : Lib) (o : Oauth2) (w : World) (rand : String)
    (remoteState remoteSecret remoteCallback : String) (version : Int) :
    Option (RequestResult × World) :=
  let state := rand
  match o.conf with
  | none => none
  | some conf =>
    let url := lib.AuthCodeURL conf state
    let err : Option Error := none
    if err.isSome then
      some ({ url := url,
              err := err.map (fun e =>
                Error.UnknownError (Error.Wrap e "oauth.oauth2: Unknown api error")) }, w)
    else
      let tokn : Token :=
        { Id := state
          RemoteCallback := remoteCallback
          RemoteState := remoteState
          RemoteSecret := remoteSecret
          Typ := o.Typ
          Version := version }
      match w.db.Insert tokn with
      | (some e, db) => some ({ url := url, err := some (ParseError e) }, { w with db := db })
      | (none, db) => some ({ url := url, err := none }, { w with db := db })

/-- Results of `Authorize`: `(acct *account.Account, tokn *Token, err error)`.
`tokn` is never nil: it is allocated on line 76. -/
structure AuthorizeResult where
  acct : Option Account
  tokn : Token
  err : Option Error
  deriving DecidableEq, Repr

/-- `func (o *Oauth2) Authorize(...)` (lines 72-100). The outer `none` is the
panic of calling `Exchange` through a nil `o.conf`. The fresh account of line
92 has the zero value in every field the literal does not set, `Id` included. -/
def Oauth2.Authorize (lib : Lib) (o : Oauth2) (w : World) (state code : String) :
    Option (AuthorizeResult × World) :=
  let tokn := Token.zero
  match w.db.FindOneId state tokn with
  | (some e, tokn) =>
    some ({ acct := none, tokn := tokn, err := some (ParseError e) }, w)
  | (none, tokn) =>
    match o.conf with
    | none => none
    | some conf =>
      let w1 := { w with exchanges := w.exchanges ++ [code] }
      match lib.Exchange conf w.exchanges code with
      | Except.error e =>
        some ({ acct := none, tokn := tokn,
                err := some (Error.UnknownError
                  (Error.Wrap e "oauth.oauth2: Unknown api error")) }, w1)
      | Except.ok accessTokn =>
        let acct : Account :=
          { Id := ""
            Typ := o.Typ
            Oauth2AccTokn := accessTokn.AccessToken
            Oauth2RefTokn := accessTokn.RefreshToken
            Oauth2Exp := accessTokn.Expiry }
        some ({ acct := some acct, tokn := tokn, err := none }, w1)

/-- The per-account client `Oauth2Client` (lines 119-124): the embedded
`oauth2.Token`, the http client, the owning configuration and the bound
account. The Go field `Account` is a pointer; the account a caller observes
after an operation is the `Account` field of the client the operation returns. -/
structure Oauth2Client extends OAuth2Token where
  client : HttpClient
  conf : Oauth2
  Account : Account

/-- `func (o *Oauth2) NewClient(acct)` (lines 102-117). The literal of line 110
sets `Account`, `client` and `conf`; the embedded `oauth2.Token` keeps its zero
value. -/
def Oauth2.NewClient (lib : Lib) (o : Oauth2) (acct : Account) : Oauth2Client :=
  let tokn : OAuth2Token :=
    { AccessToken := acct.Oauth2AccTokn
      TokenType := "Bearer"
      RefreshToken := acct.Oauth2RefTokn
      Expiry := acct.Oauth2Exp }
  { toOAuth2Token := OAuth2Token.zero
    Account := acct
    client := { Source := lib.TokenSource o.conf tokn, calls := 0 }
    conf := o }

/-- Results of `Check`: `(refreshed bool, err error)`. -/
structure CheckResult where
  refreshed : Bool
  err : Option Error
  deriving DecidableEq, Repr

/-- `func (c *Oauth2Client) Check()` (lines 157-174), with the client after the
call. -/
def Oauth2Client.Check (c : Oauth2Client) : CheckResult × Oauth2Client :=
  let c1 : Oauth2Client := { c with client := { c.client with calls := c.client.calls + 1 } }
  match c.client.Source c.client.calls with
  | Except.error e =>
    ({ refreshed := false,
       err := some (Error.UnknownError (Error.Wrap e "oauth.oauth2: Unknown token error")) },
     c1)
  | Except.ok tokn =>
    let refreshed := tokn.AccessToken != c.AccessToken
    if refreshed then
      ({ refreshed := refreshed, err := none },
       { c1 with
         AccessToken := tokn.AccessToken
         RefreshToken := tokn.RefreshToken
         Expiry := tokn.Expiry })
    else
      ({ refreshed := refreshed, err := none }, c1)

/-- `func (c *Oauth2Client) Refresh(db)` (lines 126-155), with the client and
the world after the call. -/
def Oauth2Client.Refresh (c : Oauth2Client) (w : World) :
    Option Error × Oauth2Client × World :=
  match c.Check with
  | ({ refreshed := _, err := some e }, c1) => (some e, c1, w)
  | ({ refreshed := false, err := none }, c1) => (none, c1, w)
  | ({ refreshed := true, err := none }, c1) =>
    let acct : Oauth.Account :=
      { c1.Account with
        Oauth2AccTokn := c1.AccessToken
        Oauth2RefTokn := c1.RefreshToken
        Oauth2Exp := c1.Expiry }
    let c2 : Oauth2Client := { c1 with Account := acct }
    if c2.Account.Id = "" then
      (none, c2, w)
    else
      let fields := ["oauth2_acc_tokn", "oauth2_ref_tokn", "oauth2_exp"]
      let w1 := { w with commits := w.commits ++ [(c2.Account.Id, fields)] }
      match w.db.CommitFields c2.Account.Id c2.Account fields with
      | (some e, db) => (some (ParseError e), c2, { w1 with db := db })
      | (none, db) => (none, c2, { w1 with db := db })

/-! ## Concrete collaborators used to run the code on explicit inputs -/

/-- A library instance: the authorization URL is the endpoint followed by the
state, the provider accepts exactly the code `"good"`, and a token source hands
back the token it was built from as long as that token is non-empty and not
past the instant `1000`, and otherwise answers with a freshly issued token. -/
def demoLib : Lib :=
  { AuthCodeURL := fun cfg state => cfg.AuthURL ++ "?state=" ++ state
    Exchange := fun _ _ code =>
      if code = "good" then
        Except.ok { AccessToken := "acc-1", TokenType := "Bearer",
                    RefreshToken := "ref-1", Expiry := 2000 }
      else Except.error (Error.Native "invalid_grant")
    TokenSource := fun _ tokn _ =>
      if tokn.AccessToken ≠ "" ∧ (tokn.Expiry = 0 ∨ 1000 < tokn.Expiry) then Except.ok tokn
      else if tokn.RefreshToken = "" then Except.error (Error.Native "token expired")
      else Except.ok { AccessToken := "acc-new", TokenType := "Bearer",
                       RefreshToken := tokn.RefreshToken, Expiry := 5000 } }

/-- A provider registration, not yet configured. -/
def demoProvider : Oauth2 :=
  { Typ := "google", ClientId := "id", ClientSecret := "secret",
    CallbackUrl := "https://auth/callback", AuthUrl := "https://provider/auth",
    TokenUrl := "https://provider/token", Scopes := ["email"], conf := none }

/-- A stored account holding a token that is still valid at the instant `1000`. -/
def validAccount : Account :=
  { Id := "a1", Typ := "google", Oauth2AccTokn := "acc-old", Oauth2RefTokn := "ref-old",
    Oauth2Exp := 3000 }

/-- A stored account whose token has expired at the instant `1000`. -/
def expiredAccount : Account :=
  { Id := "a2", Typ := "google", Oauth2AccTokn := "acc-old", Oauth2RefTokn := "ref-old",
    Oauth2Exp := 500 }

/-- A pending authorization stored under the state `"s1"`. -/
def demoPending : Token :=
  { Id := "s1", RemoteCallback := "https://app/cb", RemoteState := "rs",
    RemoteSecret := "sec", Typ := "google", Version := 1 }

/-- A world with one pending authorization and two accounts stored. -/
def demoWorld : World :=
  { db := { tokens := [demoPending], accounts := [validAccount, expiredAccount] }
    exchanges := []
    commits := [] }

/-- A client of `expiredAccount` that already holds the account's tokens. -/
def expiredClient : Oauth2Client :=
  { Oauth2.NewClient demoLib demoProvider.Config expiredAccount with
    AccessToken := "acc-old", TokenType := "Bearer", RefreshToken := "ref-old", Expiry := 500 }

/-- A client of an account that has no assigned `Id` yet and whose token has
expired, so that its token source answers with a freshly issued token. -/
def unsavedClient : Oauth2Client :=
  Oauth2.NewClient demoLib demoProvider.Config { expiredAccount with Id := "" }

/-- A client of `expiredAccount` whose token source fails: the account has no
refresh token left. -/
def revokedClient : Oauth2Client :=
  Oauth2.NewClient demoLib demoProvider.Config { expiredAccount with Oauth2RefTokn := "" }

/-- The three column names `Refresh` commits. -/
def tokenFields : List String := ["oauth2_acc_tokn", "oauth2_ref_tokn", "oauth2_exp"]

/-- The client `Refresh` leaves behind once a new token has been detected. -/
def refreshedClient (c : Oauth2Client) (t : OAuth2Token) : Oauth2Client :=
  { c with
    client := { c.client with calls := c.client.calls + 1 }
    AccessToken := t.AccessToken
    RefreshToken := t.RefreshToken
    Expiry := t.Expiry
    Account :=
      { c.Account with
        Oauth2AccTokn := t.AccessToken
        Oauth2RefTokn := t.RefreshToken
        Oauth2Exp := t.Expiry } }

/-! ## Reduction lemmas -/

theorem Check_of_error (c : Oauth2Client) (e : Error)
    (h : c.client.Source c.client.calls = Except.error e) :
    c.Check =
      ({ refreshed := false,
         err := some (Error.UnknownError (Error.Wrap e "oauth.oauth2: Unknown token error")) },
       { c with client := { c.client with calls := c.client.calls + 1 } }) := by
  unfold Oauth2Client.Check
  rw [h]

theorem Check_of_same (c : Oauth2Client) (t : OAuth2Token)
    (h : c.client.Source c.client.calls = Except.ok t)
    (hs : t.AccessToken = c.AccessToken) :
    c.Check =
      ({ refreshed := false, err := none },
       { c with client := { c.client with calls := c.client.calls + 1 } }) := by
  unfold Oauth2Client.Check
  rw [h]
  simp [hs]

theorem Check_of_new (c : Oauth2Client) (t : OAuth2Token)
    (h : c.client.Source c.client.calls = Except.ok t)
    (hs : t.AccessToken ≠ c.AccessToken) :
    c.Check =
      ({ refreshed := true, err := none },
       { c with
         client := { c.client with calls := c.client.calls + 1 }
         AccessToken := t.AccessToken
         RefreshToken := t.RefreshToken
         Expiry := t.Expiry }) := by
  unfold Oauth2Client.Check
  rw [h]
  simp [hs]

theorem Refresh_of_error (c : Oauth2Client) (w : World) (e : Error)
    (h : c.client.Source c.client.calls = Except.error e) :
    c.Refresh w =
      (some (Error.UnknownError (Error.Wrap e "oauth.oauth2: Unknown token error")),
       { c with client := { c.client with calls := c.client.calls + 1 } }, w) := by
  unfold Oauth2Client.Refresh
  rw [Check_of_error c e h]

theorem Refresh_of_same (c : Oauth2Client) (w : World) (t : OAuth2Token)
    (h : c.client.Source c.client.calls = Except.ok t)
    (hs : t.AccessToken = c.AccessToken) :
    c.Refresh w =
      (none, { c with client := { c.client with calls := c.client.calls + 1 } }, w) := by
  unfold Oauth2Client.Refresh
  rw [Check_of_same c t h hs]

theorem Refresh_of_new_noId (c : Oauth2Client) (w : World) (t : OAuth2Token)
    (h : c.client.Source c.client.calls = Except.ok t)
    (hs : t.AccessToken ≠ c.AccessToken) (hid : c.Account.Id = "") :
    c.Refresh w = (none, refreshedClient c t, w) := by
  unfold Oauth2Client.Refresh
  rw [Check_of_new c t h hs]
  simp [hid, refreshedClient]

theorem Refresh_of_new_withId (c : Oauth2Client) (w : World) (t : OAuth2Token)
    (h : c.client.Source c.client.calls = Except.ok t)
    (hs : t.AccessToken ≠ c.AccessToken) (hid : c.Account.Id ≠ "") :
    c.Refresh w =
      (((w.db.CommitFields c.Account.Id (refreshedClient c t).Account tokenFields).1).map
          ParseError,
       refreshedClient c t,
       { db := (w.db.CommitFields c.Account.Id (refreshedClient c t).Account tokenFields).2
         exchanges := w.exchanges
         commits := w.commits ++ [(c.Account.Id, tokenFields)] }) := by
  unfold Oauth2Client.Refresh
  rw [Check_of_new c t h hs]
  simp only [hid, if_false, refreshedClient, tokenFields]
  cases hc : w.db.CommitFields c.Account.Id
      { Id := c.Account.Id, Typ := c.Account.Typ, Oauth2AccTokn := t.AccessToken,
        Oauth2RefTokn := t.RefreshToken, Oauth2Exp := t.Expiry }
      ["oauth2_acc_tokn", "oauth2_ref_tokn", "oauth2_exp"] with
  | mk oe db =>
    cases oe <;> simp

/-- Every run of `Check` answers in one of three ways, fixed by what the token
source yields. -/
theorem Check_cases (c : Oauth2Client) :
    (∃ e, c.client.Source c.client.calls = Except.error e) ∨
    (∃ t, c.client.Source c.client.calls = Except.ok t ∧ t.AccessToken = c.AccessToken) ∨
    (∃ t, c.client.Source c.client.calls = Except.ok t ∧ t.AccessToken ≠ c.AccessToken) := by
  cases h : c.client.Source c.client.calls with
  | error e => exact Or.inl ⟨e, rfl⟩
  | ok t =>
    by_cases hs : t.AccessToken = c.AccessToken
    · exact Or.inr (Or.inl ⟨t, rfl, hs⟩)
    · exact Or.inr (Or.inr ⟨t, rfl, hs⟩)

/-! ## Check -/

/-- C1 (the code departs from the claim): `NewClient` leaves the client's
embedded token at its zero value, so for every account with a non-empty access
token whose token source hands back a token `t` carrying exactly the account's
access token, `Check` on the client built by `NewClient` reports
`refreshed = true` with no error and overwrites the client's `AccessToken`,
`RefreshToken` and `Expiry` with those of `t`. -/
theorem C1_NewClient_Check_reports_refresh (lib : Lib) (o : Oauth2) (acct : Account)
    (t : OAuth2Token) (hne : acct.Oauth2AccTokn ≠ "")
    (hsrc : (Oauth2.NewClient lib o acct).client.Source 0 = Except.ok t)
    (hsame : t.AccessToken = acct.Oauth2AccTokn) :
    (Oauth2.NewClient lib o acct).AccessToken = "" ∧
    (Oauth2.NewClient lib o acct).Check.1 = { refreshed := true, err := none } ∧
    (Oauth2.NewClient lib o acct).Check.2.AccessToken = acct.Oauth2AccTokn ∧
    (Oauth2.NewClient lib o acct).Check.2.RefreshToken = t.RefreshToken ∧
    (Oauth2.NewClient lib o acct).Check.2.Expiry = t.Expiry := by
  have h0 : (Oauth2.NewClient lib o acct).client.calls = 0 := rfl
  have hz : (Oauth2.NewClient lib o acct).AccessToken = "" := rfl
  have hnew : t.AccessToken ≠ (Oauth2.NewClient lib o acct).AccessToken := by
    rw [hz, hsame]; exact hne
  rw [Check_of_new (Oauth2.NewClient lib o acct) t (by rw [h0]; exact hsrc) hnew]
  exact ⟨hz, rfl, hsame, rfl, rfl⟩

theorem C1_NewClient_Check_reports_refresh_witness :
    (Oauth2.NewClient demoLib demoProvider.Config validAccount).AccessToken = "" ∧
    (Oauth2.NewClient demoLib demoProvider.Config validAccount).Check.1
        = { refreshed := true, err := none } ∧
    (Oauth2.NewClient demoLib demoProvider.Config validAccount).Check.2.AccessToken
        = validAccount.Oauth2AccTokn ∧
    (Oauth2.NewClient demoLib demoProvider.Config validAccount).Check.2.RefreshToken
        = "ref-old" ∧
    (Oauth2.NewClient demoLib demoProvider.Config validAccount).Check.2.Expiry = 3000 :=
  C1_NewClient_Check_reports_refresh demoLib demoProvider.Config validAccount
    { AccessToken := "acc-old", TokenType := "Bearer", RefreshToken := "ref-old",
      Expiry := 3000 } (by decide) rfl rfl

/-- C2: when the token source yields `t`, `Check` returns no error and reports
`refreshed = true` exactly when `t.AccessToken` differs from the held
`AccessToken`; if it differs the three held fields become those of `t`, and if
it does not the three held fields stay as they were. -/
theorem C2_Check_refreshed_iff_new_token (c : Oauth2Client) (t : OAuth2Token)
    (h : c.client.Source c.client.calls = Except.ok t) :
    c.Check.1.err = none ∧
    (c.Check.1.refreshed = true ↔ t.AccessToken ≠ c.AccessToken) ∧
    (t.AccessToken ≠ c.AccessToken →
      c.Check.2.AccessToken = t.AccessToken ∧
      c.Check.2.RefreshToken = t.RefreshToken ∧
      c.Check.2.Expiry = t.Expiry) ∧
    (t.AccessToken = c.AccessToken →
      c.Check.2.AccessToken = c.AccessToken ∧
      c.Check.2.RefreshToken = c.RefreshToken ∧
      c.Check.2.Expiry = c.Expiry) := by
  by_cases hs : t.AccessToken = c.AccessToken
  · rw [Check_of_same c t h hs]
    simp [hs]
  · rw [Check_of_new c t h hs]
    simp [hs]

theorem C2_Check_refreshed_iff_new_token_witness :
    (expiredClient.Check.1.err = none ∧
    (expiredClient.Check.1.refreshed = true ↔ "acc-new" ≠ expiredClient.AccessToken) ∧
    ("acc-new" ≠ expiredClient.AccessToken →
      expiredClient.Check.2.AccessToken = "acc-new" ∧
      expiredClient.Check.2.RefreshToken = "ref-old" ∧
      expiredClient.Check.2.Expiry = 5000) ∧
    ("acc-new" = expiredClient.AccessToken →
      expiredClient.Check.2.AccessToken = expiredClient.AccessToken ∧
      expiredClient.Check.2.RefreshToken = expiredClient.RefreshToken ∧
      expiredClient.Check.2.Expiry = expiredClient.Expiry)) :=
  C2_Check_refreshed_iff_new_token expiredClient
    { AccessToken := "acc-new", TokenType := "Bearer", RefreshToken := "ref-old",
      Expiry := 5000 } rfl

/-! ## Refresh -/

/-- C10: if `Check` fails or reports `refreshed = false`, `Refresh` leaves the
bound account as it was and writes nothing (no `CommitFields` call, database
unchanged); when the token source failed with `e` it returns the
`UnknownError` wrapping `e` under "oauth.oauth2: Unknown token error", which is
the error of `Check`, and when nothing changed it returns no error. -/
theorem C10_Refresh_without_detection_changes_nothing (c : Oauth2Client) (w : World)
    (h : c.Check.1.err ≠ none ∨ c.Check.1.refreshed = false) :
    (c.Refresh w).2.1.Account = c.Account ∧
    (c.Refresh w).2.2 = w ∧
    (c.Refresh w).1 = c.Check.1.err ∧
    (∀ e, c.client.Source c.client.calls = Except.error e →
      (c.Refresh w).1 =
        some (Error.UnknownError (Error.Wrap e "oauth.oauth2: Unknown token error"))) ∧
    (c.Check.1.err = none → (c.Refresh w).1 = none) := by
  rcases Check_cases c with ⟨e, he⟩ | ⟨t, ht, hs⟩ | ⟨t, ht, hs⟩
  · rw [Refresh_of_error c w e he, Check_of_error c e he]
    refine ⟨rfl, rfl, rfl, ?_, ?_⟩
    · intro e1 he1
      rw [he] at he1
      cases he1
      rfl
    · intro hn
      cases hn
  · rw [Refresh_of_same c w t ht hs, Check_of_same c t ht hs]
    simp [ht]
  · rw [Check_of_new c t ht hs] at h
    simp at h

theorem C10_Refresh_without_detection_changes_nothing_witness :
    (revokedClient.Refresh demoWorld).2.1.Account = revokedClient.Account ∧
    (revokedClient.Refresh demoWorld).2.2 = demoWorld ∧
    (revokedClient.Refresh demoWorld).1 = revokedClient.Check.1.err ∧
    (∀ e, revokedClient.client.Source revokedClient.client.calls = Except.error e →
      (revokedClient.Refresh demoWorld).1 =
        some (Error.UnknownError (Error.Wrap e "oauth.oauth2: Unknown token error"))) ∧
    (revokedClient.Check.1.err = none → (revokedClient.Refresh demoWorld).1 = none) :=
  C10_Refresh_without_detection_changes_nothing revokedClient demoWorld (Or.inl (by decide))

/-- C4: for a client whose bound account has an empty `Id`, `Refresh` makes no
`CommitFields` call and leaves the database as it was, whatever `Check`
reports; when `Check` reports a refresh, `Refresh` returns no error and the
account's `Oauth2AccTokn`, `Oauth2RefTokn` and `Oauth2Exp` equal the client's
refreshed `AccessToken`, `RefreshToken` and `Expiry`. -/
theorem C4_Refresh_without_Id_never_commits (c : Oauth2Client) (w : World)
    (hid : c.Account.Id = "") :
    (c.Refresh w).2.2.commits = w.commits ∧
    (c.Refresh w).2.2.db = w.db ∧
    (c.Check.1.refreshed = true →
      (c.Refresh w).1 = none ∧
      (c.Refresh w).2.1.AccessToken = c.Check.2.AccessToken ∧
      (c.Refresh w).2.1.RefreshToken = c.Check.2.RefreshToken ∧
      (c.Refresh w).2.1.Expiry = c.Check.2.Expiry ∧
      (c.Refresh w).2.1.Account.Oauth2AccTokn = (c.Refresh w).2.1.AccessToken ∧
      (c.Refresh w).2.1.Account.Oauth2RefTokn = (c.Refresh w).2.1.RefreshToken ∧
      (c.Refresh w).2.1.Account.Oauth2Exp = (c.Refresh w).2.1.Expiry ∧
      (c.Refresh w).2.1.Account.Id = "") := by
  rcases Check_cases c with ⟨e, he⟩ | ⟨t, ht, hs⟩ | ⟨t, ht, hs⟩
  · rw [Refresh_of_error c w e he, Check_of_error c e he]
    simp
  · rw [Refresh_of_same c w t ht hs, Check_of_same c t ht hs]
    simp
  · rw [Refresh_of_new_noId c w t ht hs hid, Check_of_new c t ht hs]
    simp [refreshedClient, hid]

theorem C4_Refresh_without_Id_never_commits_witness :
    (unsavedClient.Refresh demoWorld).2.2.commits = demoWorld.commits ∧
    (unsavedClient.Refresh demoWorld).2.2.db = demoWorld.db ∧
    (unsavedClient.Check.1.refreshed = true →
      (unsavedClient.Refresh demoWorld).1 = none ∧
      (unsavedClient.Refresh demoWorld).2.1.AccessToken = unsavedClient.Check.2.AccessToken ∧
      (unsavedClient.Refresh demoWorld).2.1.RefreshToken = unsavedClient.Check.2.RefreshToken ∧
      (unsavedClient.Refresh demoWorld).2.1.Expiry = unsavedClient.Check.2.Expiry ∧
      (unsavedClient.Refresh demoWorld).2.1.Account.Oauth2AccTokn
        = (unsavedClient.Refresh demoWorld).2.1.AccessToken ∧
      (unsavedClient.Refresh demoWorld).2.1.Account.Oauth2RefTokn
        = (unsavedClient.Refresh demoWorld).2.1.RefreshToken ∧
      (unsavedClient.Refresh demoWorld).2.1.Account.Oauth2Exp
        = (unsavedClient.Refresh demoWorld).2.1.Expiry ∧
      (unsavedClient.Refresh demoWorld).2.1.Account.Id = "") :=
  C4_Refresh_without_Id_never_commits unsavedClient demoWorld rfl

/-! ### What a commit of the three token fields does to the stored accounts -/

theorem foldl_tokenFields (acct a : Account) :
    tokenFields.foldl (fun d f => Account.setField acct d f) a =
      { a with
        Oauth2AccTokn := acct.Oauth2AccTokn
        Oauth2RefTokn := acct.Oauth2RefTokn
        Oauth2Exp := acct.Oauth2Exp } := by
  simp [tokenFields, Account.setField]

theorem commitInto_keeps_Id_Typ (id : String) (acct : Account) (l : List Account) :
    (Account.commitInto id acct tokenFields l).map (fun a => (a.Id, a.Typ)) =
      l.map (fun a => (a.Id, a.Typ)) := by
  induction l with
  | nil => rfl
  | cons a rest ih =>
    unfold Account.commitInto
    by_cases h : a.Id = id
    · simp [h, foldl_tokenFields]
    · simp [h, ih]

theorem commitInto_find (id : String) (acct : Account) (l : List Account)
    (h : l.any (fun a => a.Id == id) = true) :
    ∃ a0, l.find? (fun a => a.Id == id) = some a0 ∧
      (Account.commitInto id acct tokenFields l).find? (fun a => a.Id == id) =
        some { a0 with
               Oauth2AccTokn := acct.Oauth2AccTokn
               Oauth2RefTokn := acct.Oauth2RefTokn
               Oauth2Exp := acct.Oauth2Exp } := by
  induction l with
  | nil => simp at h
  | cons a rest ih =>
    unfold Account.commitInto
    by_cases ha : a.Id = id
    · refine ⟨a, ?_, ?_⟩
      · simp [ha]
      · simp [ha, foldl_tokenFields]
    · have hrest : rest.any (fun a => a.Id == id) = true := by
        simpa [ha] using h
      obtain ⟨a0, h1, h2⟩ := ih hrest
      refine ⟨a0, ?_, ?_⟩
      · simp [ha, h1]
      · simp [ha, h2]

/-- C5: for a client whose bound account has a non-empty `Id` and for which
`Check` reports `refreshed = true`, `Refresh` copies the client's refreshed
`AccessToken`, `RefreshToken` and `Expiry` onto the account (its `Id` and type
untouched), then makes exactly one `CommitFields` call, with the account's `Id`,
the updated account and the field names `oauth2_acc_tokn`, `oauth2_ref_tokn`,
`oauth2_exp` and no other; the database afterwards is the one that call leaves,
in which no stored account has changed its `Id` or type; `Refresh` returns an
error exactly when the write fails, and then it is `ParseError` of the write
error. -/
theorem C5_Refresh_commits_three_fields (c : Oauth2Client) (w : World)
    (hid : c.Account.Id ≠ "") (hr : c.Check.1.refreshed = true) :
    (c.Refresh w).2.1.AccessToken = c.Check.2.AccessToken ∧
    (c.Refresh w).2.1.RefreshToken = c.Check.2.RefreshToken ∧
    (c.Refresh w).2.1.Expiry = c.Check.2.Expiry ∧
    (c.Refresh w).2.1.Account =
      { Id := c.Account.Id
        Typ := c.Account.Typ
        Oauth2AccTokn := c.Check.2.AccessToken
        Oauth2RefTokn := c.Check.2.RefreshToken
        Oauth2Exp := c.Check.2.Expiry } ∧
    (c.Refresh w).2.2.commits =
      w.commits ++ [(c.Account.Id, ["oauth2_acc_tokn", "oauth2_ref_tokn", "oauth2_exp"])] ∧
    (c.Refresh w).2.2.db =
      (w.db.CommitFields c.Account.Id (c.Refresh w).2.1.Account
        ["oauth2_acc_tokn", "oauth2_ref_tokn", "oauth2_exp"]).2 ∧
    (c.Refresh w).2.2.db.accounts.map (fun a => (a.Id, a.Typ)) =
      w.db.accounts.map (fun a => (a.Id, a.Typ)) ∧
    (c.Refresh w).2.2.db.tokens = w.db.tokens ∧
    (c.Refresh w).1 =
      ((w.db.CommitFields c.Account.Id (c.Refresh w).2.1.Account
        ["oauth2_acc_tokn", "oauth2_ref_tokn", "oauth2_exp"]).1).map ParseError ∧
    ((c.Refresh w).1 ≠ none ↔
      (w.db.CommitFields c.Account.Id (c.Refresh w).2.1.Account
        ["oauth2_acc_tokn", "oauth2_ref_tokn", "oauth2_exp"]).1 ≠ none) := by
  rcases Check_cases c with ⟨e, he⟩ | ⟨t, ht, hs⟩ | ⟨t, ht, hs⟩
  · rw [Check_of_error c e he] at hr
    simp at hr
  · rw [Check_of_same c t ht hs] at hr
    simp at hr
  · rw [Refresh_of_new_withId c w t ht hs hid, Check_of_new c t ht hs]
    refine ⟨rfl, rfl, rfl, rfl, rfl, rfl, ?_, ?_, rfl, ?_⟩
    · show (w.db.CommitFields c.Account.Id (refreshedClient c t).Account
          tokenFields).2.accounts.map (fun a => (a.Id, a.Typ)) = _
      unfold Database.CommitFields
      split
      · exact commitInto_keeps_Id_Typ _ _ _
      · rfl
    · show (w.db.CommitFields c.Account.Id (refreshedClient c t).Account
          tokenFields).2.tokens = _
      unfold Database.CommitFields
      split <;> rfl
    · show (Option.map ParseError (w.db.CommitFields c.Account.Id
          (refreshedClient c t).Account tokenFields).1 ≠ none ↔
        (w.db.CommitFields c.Account.Id (refreshedClient c t).Account tokenFields).1 ≠ none)
      generalize (w.db.CommitFields c.Account.Id (refreshedClient c t).Account
        tokenFields).1 = x
      cases x <;> simp

theorem C5_Refresh_commits_three_fields_witness :
    (expiredClient.Refresh demoWorld).2.1.AccessToken = expiredClient.Check.2.AccessToken ∧
    (expiredClient.Refresh demoWorld).2.1.RefreshToken = expiredClient.Check.2.RefreshToken ∧
    (expiredClient.Refresh demoWorld).2.1.Expiry = expiredClient.Check.2.Expiry ∧
    (expiredClient.Refresh demoWorld).2.1.Account =
      { Id := expiredClient.Account.Id
        Typ := expiredClient.Account.Typ
        Oauth2AccTokn := expiredClient.Check.2.AccessToken
        Oauth2RefTokn := expiredClient.Check.2.RefreshToken
        Oauth2Exp := expiredClient.Check.2.Expiry } ∧
    (expiredClient.Refresh demoWorld).2.2.commits =
      demoWorld.commits ++
        [(expiredClient.Account.Id, ["oauth2_acc_tokn", "oauth2_ref_tokn", "oauth2_exp"])] ∧
    (expiredClient.Refresh demoWorld).2.2.db =
      (demoWorld.db.CommitFields expiredClient.Account.Id
        (expiredClient.Refresh demoWorld).2.1.Account
        ["oauth2_acc_tokn", "oauth2_ref_tokn", "oauth2_exp"]).2 ∧
    (expiredClient.Refresh demoWorld).2.2.db.accounts.map (fun a => (a.Id, a.Typ)) =
      demoWorld.db.accounts.map (fun a => (a.Id, a.Typ)) ∧
    (expiredClient.Refresh demoWorld).2.2.db.tokens = demoWorld.db.tokens ∧
    (expiredClient.Refresh demoWorld).1 =
      ((demoWorld.db.CommitFields expiredClient.Account.Id
        (expiredClient.Refresh demoWorld).2.1.Account
        ["oauth2_acc_tokn", "oauth2_ref_tokn", "oauth2_exp"]).1).map ParseError ∧
    ((expiredClient.Refresh demoWorld).1 ≠ none ↔
      (demoWorld.db.CommitFields expiredClient.Account.Id
        (expiredClient.Refresh demoWorld).2.1.Account
        ["oauth2_acc_tokn", "oauth2_ref_tokn", "oauth2_exp"]).1 ≠ none) :=
  C5_Refresh_commits_three_fields expiredClient demoWorld (by decide) (by decide)

/-- C3, as stated, fails: `expiredClient` is bound to the stored account `"a2"`
and its token source yields the new access token `"acc-new"` on every call;
`Check` reports `refreshed = true`, and the `Refresh` that follows on the same
client makes no `CommitFields` call, leaves the database as it was (the stored
account still carries `"acc-old"`) and leaves the bound account's token fields
at their old values. -/
theorem C3_Refresh_after_Check_commits_nothing :
    expiredClient.Account.Id = "a2" ∧
    expiredClient.client.Source 0 = expiredClient.client.Source 1 ∧
    expiredClient.Check.1 = { refreshed := true, err := none } ∧
    expiredClient.Check.2.AccessToken = "acc-new" ∧
    (expiredClient.Check.2.Refresh demoWorld).1 = none ∧
    (expiredClient.Check.2.Refresh demoWorld).2.2.commits = [] ∧
    (expiredClient.Check.2.Refresh demoWorld).2.2.db = demoWorld.db ∧
    (expiredClient.Check.2.Refresh demoWorld).2.2.db.accounts.find? (fun a => a.Id == "a2")
      = some expiredAccount ∧
    (expiredClient.Check.2.Refresh demoWorld).2.1.Account = expiredAccount ∧
    ¬ ((expiredClient.Check.2.Refresh demoWorld).2.2.commits =
        [("a2", ["oauth2_acc_tokn", "oauth2_ref_tokn", "oauth2_exp"])]) := by
  refine ⟨rfl, rfl, ?_, ?_, ?_, ?_, ?_, ?_, ?_, ?_⟩ <;> decide

/-- C3 (amended): for a client bound to an account with a non-empty `Id` whose
token source yields, on this call and the next, a token `t` with an access token
different from the held one: `Check` reports `refreshed = true`, and the
`Refresh` that follows on the same client returns no error, makes no
`CommitFields` call, and leaves the database and the bound account as they
were. The commit of exactly `oauth2_acc_tokn`, `oauth2_ref_tokn` and
`oauth2_exp` happens when `Refresh` itself is the call that detects the new
token: run on the original client it makes one `CommitFields` call with the
account's `Id` and exactly these three names, and if an account is stored under
that `Id` the stored record afterwards carries the three token values of `t`
with its `Id` and type as before. -/
theorem C3_Refresh_commits_only_on_own_detection (c : Oauth2Client) (w : World)
    (t : OAuth2Token) (hid : c.Account.Id ≠ "")
    (h0 : c.client.Source c.client.calls = Except.ok t)
    (h1 : c.client.Source (c.client.calls + 1) = Except.ok t)
    (hnew : t.AccessToken ≠ c.AccessToken) :
    c.Check.1 = { refreshed := true, err := none } ∧
    (c.Check.2.Refresh w).1 = none ∧
    (c.Check.2.Refresh w).2.2 = w ∧
    (c.Check.2.Refresh w).2.1.Account = c.Account ∧
    (c.Refresh w).2.2.commits =
      w.commits ++ [(c.Account.Id, ["oauth2_acc_tokn", "oauth2_ref_tokn", "oauth2_exp"])] ∧
    (w.db.accounts.any (fun a => a.Id == c.Account.Id) = true →
      (c.Refresh w).1 = none ∧
      ∃ a0, w.db.accounts.find? (fun a => a.Id == c.Account.Id) = some a0 ∧
        (c.Refresh w).2.2.db.accounts.find? (fun a => a.Id == c.Account.Id) =
          some { a0 with
                 Oauth2AccTokn := t.AccessToken
                 Oauth2RefTokn := t.RefreshToken
                 Oauth2Exp := t.Expiry }) := by
  have hc := Check_of_new c t h0 hnew
  refine ⟨?_, ?_, ?_, ?_, ?_, ?_⟩
  · rw [hc]
  · rw [hc, Refresh_of_same _ w t h1 rfl]
  · rw [hc, Refresh_of_same _ w t h1 rfl]
  · rw [hc, Refresh_of_same _ w t h1 rfl]
  · rw [Refresh_of_new_withId c w t h0 hnew hid]
    rfl
  · intro hany
    rw [Refresh_of_new_withId c w t h0 hnew hid]
    obtain ⟨a0, hf, hg⟩ :=
      commitInto_find c.Account.Id (refreshedClient c t).Account w.db.accounts hany
    have hcf : w.db.CommitFields c.Account.Id (refreshedClient c t).Account tokenFields =
        (none, { tokens := w.db.tokens, accounts :=
          (Account.commitInto c.Account.Id (refreshedClient c t).Account tokenFields
            w.db.accounts) }) := by
      unfold Database.CommitFields
      rw [if_pos hany]
    rw [hcf]
    exact ⟨rfl, a0, hf, hg⟩

theorem C3_Refresh_commits_only_on_own_detection_witness :
    expiredClient.Check.1 = { refreshed := true, err := none } ∧
    (expiredClient.Check.2.Refresh demoWorld).1 = none ∧
    (expiredClient.Check.2.Refresh demoWorld).2.2 = demoWorld ∧
    (expiredClient.Check.2.Refresh demoWorld).2.1.Account = expiredClient.Account ∧
    (expiredClient.Refresh demoWorld).2.2.commits =
      demoWorld.commits ++
        [(expiredClient.Account.Id, ["oauth2_acc_tokn", "oauth2_ref_tokn", "oauth2_exp"])] ∧
    (demoWorld.db.accounts.any (fun a => a.Id == expiredClient.Account.Id) = true →
      (expiredClient.Refresh demoWorld).1 = none ∧
      ∃ a0, demoWorld.db.accounts.find? (fun a => a.Id == expiredClient.Account.Id)
          = some a0 ∧
        (expiredClient.Refresh demoWorld).2.2.db.accounts.find?
            (fun a => a.Id == expiredClient.Account.Id) =
          some { a0 with
                 Oauth2AccTokn := "acc-new"
                 Oauth2RefTokn := "ref-old"
                 Oauth2Exp := 5000 }) :=
  C3_Refresh_commits_only_on_own_detection expiredClient demoWorld
    { AccessToken := "acc-new", TokenType := "Bearer", RefreshToken := "ref-old",
      Expiry := 5000 } (by decide) rfl rfl (by decide)

/-! ## Authorize -/

theorem find_none_of_absent (l : List Token) (state : String)
    (h : ∀ t ∈ l, t.Id ≠ state) : l.find? (fun t => t.Id == state) = none := by
  rw [List.find?_eq_none]
  intro t ht
  simpa using h t ht

theorem Authorize_of_absent (lib : Lib) (o : Oauth2) (w : World) (state code : String)
    (h : w.db.tokens.find? (fun t => t.Id == state) = none) :
    o.Authorize lib w state code =
      some ({ acct := none, tokn := Token.zero,
              err := some (ParseError Error.ErrNotFound) }, w) := by
  unfold Oauth2.Authorize Database.FindOneId
  simp only [h]

theorem Authorize_of_rejected (lib : Lib) (o : Oauth2) (w : World) (state code : String)
    (conf : OAuth2Config) (tk : Token) (e : Error)
    (hf : w.db.tokens.find? (fun t => t.Id == state) = some tk)
    (hc : o.conf = some conf)
    (hx : lib.Exchange conf w.exchanges code = Except.error e) :
    o.Authorize lib w state code =
      some ({ acct := none, tokn := tk,
              err := some (Error.UnknownError
                (Error.Wrap e "oauth.oauth2: Unknown api error")) },
            { w with exchanges := w.exchanges ++ [code] }) := by
  unfold Oauth2.Authorize Database.FindOneId
  simp only [hf, hc, hx]

theorem Authorize_of_accepted (lib : Lib) (o : Oauth2) (w : World) (state code : String)
    (conf : OAuth2Config) (tk : Token) (t : OAuth2Token)
    (hf : w.db.tokens.find? (fun t => t.Id == state) = some tk)
    (hc : o.conf = some conf)
    (hx : lib.Exchange conf w.exchanges code = Except.ok t) :
    o.Authorize lib w state code =
      some ({ acct := some { Id := "", Typ := o.Typ, Oauth2AccTokn := t.AccessToken,
                             Oauth2RefTokn := t.RefreshToken, Oauth2Exp := t.Expiry },
              tokn := tk, err := none },
            { w with exchanges := w.exchanges ++ [code] }) := by
  unfold Oauth2.Authorize Database.FindOneId
  simp only [hf, hc, hx]

/-- C6: when no stored pending authorization has the id `state`, the lookup
answers not-found and `Authorize` fails with `ParseError` of that error, which
is the `NotFoundError`; it returns no account and leaves the world as it was:
no code is handed to the provider's exchange, whatever the code, and nothing is
written. -/
theorem C6_Authorize_unknown_state_not_found (lib : Lib) (o : Oauth2) (w : World)
    (state code : String) (h : ∀ t ∈ w.db.tokens, t.Id ≠ state) :
    ∃ r w1, o.Authorize lib w state code = some (r, w1) ∧
      (w.db.FindOneId state Token.zero).1 = some Error.ErrNotFound ∧
      r.err = some (ParseError Error.ErrNotFound) ∧
      r.err = some (Error.NotFoundError Error.ErrNotFound) ∧
      r.acct = none ∧
      w1.exchanges = w.exchanges ∧
      w1 = w := by
  have hf := find_none_of_absent w.db.tokens state h
  refine ⟨_, _, Authorize_of_absent lib o w state code hf, ?_, rfl, rfl, rfl, rfl, rfl⟩
  simp [Database.FindOneId, hf]

theorem C6_Authorize_unknown_state_not_found_witness :
    ∃ r w1, demoProvider.Config.Authorize demoLib demoWorld "nope" "good" = some (r, w1) ∧
      (demoWorld.db.FindOneId "nope" Token.zero).1 = some Error.ErrNotFound ∧
      r.err = some (ParseError Error.ErrNotFound) ∧
      r.err = some (Error.NotFoundError Error.ErrNotFound) ∧
      r.acct = none ∧
      w1.exchanges = demoWorld.exchanges ∧
      w1 = demoWorld :=
  C6_Authorize_unknown_state_not_found demoLib demoProvider.Config demoWorld "nope" "good"
    (by decide)

/-- C9: when a pending authorization is stored under `state`, the provider is
configured and the exchange of `code` fails with `e`, `Authorize` fails with the
`UnknownError` wrapping `e` under "oauth.oauth2: Unknown api error", returns no
account, and writes nothing: the database (token store and accounts) is as it
was and no `CommitFields` call is made; the one effect is the exchange call. -/
theorem C9_Authorize_rejected_code (lib : Lib) (o : Oauth2) (w : World)
    (state code : String) (conf : OAuth2Config) (e : Error)
    (hs : ∃ t ∈ w.db.tokens, t.Id = state)
    (hc : o.conf = some conf)
    (hx : lib.Exchange conf w.exchanges code = Except.error e) :
    ∃ r w1, o.Authorize lib w state code = some (r, w1) ∧
      r.err = some (Error.UnknownError (Error.Wrap e "oauth.oauth2: Unknown api error")) ∧
      r.acct = none ∧
      w1.db = w.db ∧
      w1.commits = w.commits ∧
      w1.exchanges = w.exchanges ++ [code] := by
  obtain ⟨t, ht, hid⟩ := hs
  cases hf : w.db.tokens.find? (fun t => t.Id == state) with
  | none =>
    rw [List.find?_eq_none] at hf
    have := hf t ht
    simp [hid] at this
  | some tk =>
    exact ⟨_, _, Authorize_of_rejected lib o w state code conf tk e hf hc hx,
      rfl, rfl, rfl, rfl, rfl⟩

theorem C9_Authorize_rejected_code_witness :
    ∃ r w1, demoProvider.Config.Authorize demoLib demoWorld "s1" "bad" = some (r, w1) ∧
      r.err = some (Error.UnknownError
        (Error.Wrap (Error.Native "invalid_grant") "oauth.oauth2: Unknown api error")) ∧
      r.acct = none ∧
      w1.db = demoWorld.db ∧
      w1.commits = demoWorld.commits ∧
      w1.exchanges = demoWorld.exchanges ++ ["bad"] :=
  C9_Authorize_rejected_code demoLib demoProvider.Config demoWorld "s1" "bad"
    { ClientID := "id", ClientSecret := "secret", RedirectURL := "https://auth/callback",
      Scopes := ["email"], AuthURL := "https://provider/auth",
      TokenURL := "https://provider/token" }
    (Error.Native "invalid_grant") ⟨demoPending, by decide, rfl⟩ rfl rfl

theorem Authorize_success_inv (lib : Lib) (o : Oauth2) (w : World) (state code : String)
    (r : AuthorizeResult) (w1 : World)
    (h : o.Authorize lib w state code = some (r, w1)) (hok : r.err = none) :
    ∃ tk conf t, w.db.tokens.find? (fun t => t.Id == state) = some tk ∧
      o.conf = some conf ∧
      lib.Exchange conf w.exchanges code = Except.ok t ∧
      r = { acct := some { Id := "", Typ := o.Typ, Oauth2AccTokn := t.AccessToken,
                           Oauth2RefTokn := t.RefreshToken, Oauth2Exp := t.Expiry },
            tokn := tk, err := none } ∧
      w1 = { w with exchanges := w.exchanges ++ [code] } := by
  cases hf : w.db.tokens.find? (fun t => t.Id == state) with
  | none =>
    rw [Authorize_of_absent lib o w state code hf] at h
    cases h
    cases hok
  | some tk =>
    cases hc : o.conf with
    | none =>
      unfold Oauth2.Authorize Database.FindOneId at h
      simp only [hf, hc] at h
      cases h
    | some conf =>
      cases hx : lib.Exchange conf w.exchanges code with
      | error e =>
        rw [Authorize_of_rejected lib o w state code conf tk e hf hc hx] at h
        cases h
        cases hok
      | ok t =>
        rw [Authorize_of_accepted lib o w state code conf tk t hf hc hx] at h
        cases h
        exact ⟨tk, conf, t, rfl, rfl, hx, rfl, rfl⟩

/-- C7, as stated, fails: with the pending authorization `"s1"` stored, a first
`Authorize "s1" "good"` succeeds, and the second `Authorize` with the same state
on the world the first one left does not fail with `NotFoundError`: it finds
the same record, hands the code to the provider's exchange again and
succeeds. -/
theorem C7_second_Authorize_finds_the_record_again :
    (demoProvider.Config.Authorize demoLib demoWorld "s1" "good").map (fun p => p.1.err)
      = some none ∧
    ((demoProvider.Config.Authorize demoLib demoWorld "s1" "good").bind
        (fun p => demoProvider.Config.Authorize demoLib p.2 "s1" "good")).map
          (fun p => (p.1.err, p.1.tokn, p.2.exchanges))
      = some (none, demoPending, ["good", "good"]) := by
  constructor <;> decide

/-- C7 (amended): `Authorize` does not consume the pending authorization. For
every world and state `s`, after one `Authorize` with `s` has succeeded the
database is as it was, and a second `Authorize` with the same state `s` and any
code returns, finds the same record again, hands its code to the provider's
exchange, and does not fail with `NotFoundError`: it succeeds or fails as the
exchange does. -/
theorem C7_Authorize_does_not_consume (lib : Lib) (o : Oauth2) (w : World)
    (s code code2 : String) (r : AuthorizeResult) (w1 : World)
    (h : o.Authorize lib w s code = some (r, w1)) (hok : r.err = none) :
    w1.db = w.db ∧
    ∃ r2 w2, o.Authorize lib w1 s code2 = some (r2, w2) ∧
      r2.tokn = r.tokn ∧
      w2.exchanges = w1.exchanges ++ [code2] ∧
      w2.db = w.db ∧
      (∀ e, r2.err ≠ some (Error.NotFoundError e)) ∧
      (∀ conf, o.conf = some conf →
        (r2.err = none ↔ ∃ t, lib.Exchange conf w1.exchanges code2 = Except.ok t)) := by
  obtain ⟨tk, conf, t, hf, hc, _, hr, hw⟩ := Authorize_success_inv lib o w s code r w1 h hok
  subst hr hw
  refine ⟨rfl, ?_⟩
  cases hx : lib.Exchange conf (w.exchanges ++ [code]) code2 with
  | error e =>
    refine ⟨_, _, Authorize_of_rejected lib o _ s code2 conf tk e hf hc hx,
      rfl, rfl, rfl, ?_, ?_⟩
    · intro e1 he1
      cases he1
    · intro conf1 hc1
      rw [hc] at hc1
      cases hc1
      simp [hx]
  | ok t2 =>
    refine ⟨_, _, Authorize_of_accepted lib o _ s code2 conf tk t2 hf hc hx,
      rfl, rfl, rfl, ?_, ?_⟩
    · intro e1 he1
      cases he1
    · intro conf1 hc1
      rw [hc] at hc1
      cases hc1
      simp [hx]

theorem C7_Authorize_does_not_consume_witness :
    { demoWorld with exchanges := ["good"] }.db = demoWorld.db ∧
    ∃ r2 w2, demoProvider.Config.Authorize demoLib { demoWorld with exchanges := ["good"] }
        "s1" "good" = some (r2, w2) ∧
      r2.tokn = demoPending ∧
      w2.exchanges = ["good"] ++ ["good"] ∧
      w2.db = demoWorld.db ∧
      (∀ e, r2.err ≠ some (Error.NotFoundError e)) ∧
      (∀ conf, demoProvider.Config.conf = some conf →
        (r2.err = none ↔ ∃ t, demoLib.Exchange conf ["good"] "good" = Except.ok t)) :=
  C7_Authorize_does_not_consume demoLib demoProvider.Config demoWorld "s1" "good" "good"
    { acct := some { Id := "", Typ := "google", Oauth2AccTokn := "acc-1",
                     Oauth2RefTokn := "ref-1", Oauth2Exp := 2000 },
      tokn := demoPending, err := none }
    { demoWorld with exchanges := ["good"] } (by decide) rfl

/-! ## Request followed by Authorize -/

theorem Request_success_inv (lib : Lib) (o : Oauth2) (w : World) (rand : String)
    (remoteState remoteSecret remoteCallback : String) (version : Int)
    (r : RequestResult) (w1 : World)
    (h : o.Request lib w rand remoteState remoteSecret remoteCallback version = some (r, w1))
    (hok : r.err = none) :
    ∃ conf, o.conf = some conf ∧
      r.url = lib.AuthCodeURL conf rand ∧
      w.db.tokens.any (fun t => t.Id == rand) = false ∧
      w1 = { w with db := { w.db with tokens := w.db.tokens ++
        [{ Id := rand, RemoteCallback := remoteCallback, RemoteState := remoteState,
           RemoteSecret := remoteSecret, Typ := o.Typ, Version := version }] } } := by
  cases hc : o.conf with
  | none =>
    unfold Oauth2.Request at h
    simp only [hc] at h
    cases h
  | some conf =>
    cases hany : w.db.tokens.any (fun t => t.Id == rand) with
    | true =>
      unfold Oauth2.Request Database.Insert at h
      simp [hc, hany] at h
      obtain ⟨h1, _⟩ := h
      rw [← h1] at hok
      cases hok
    | false =>
      unfold Oauth2.Request Database.Insert at h
      simp [hc, hany] at h
      obtain ⟨h1, h2⟩ := h
      refine ⟨conf, rfl, ?_, rfl, ?_⟩
      · rw [← h1]
      · rw [← h2]

theorem find_append_new (l : List Token) (tokn : Token)
    (h : l.any (fun t => t.Id == tokn.Id) = false) :
    (l ++ [tokn]).find? (fun t => t.Id == tokn.Id) = some tokn := by
  have hnone : l.find? (fun t => t.Id == tokn.Id) = none := by
    rw [List.find?_eq_none]
    intro t ht hbeq
    have : l.any (fun t => t.Id == tokn.Id) = true := List.any_eq_true.mpr ⟨t, ht, hbeq⟩
    rw [h] at this
    cases this
  simp [List.find?_append, hnone]

/-- C8: round trip of the authorization flow. For a configured provider, if
`Request` returns without error having generated the state `s`, then
`Authorize s code`, for a code whose exchange yields a token `t` with non-empty
access and refresh tokens, returns without error (i) an account with the
provider's type, the access token, refresh token and expiry of `t` (both tokens
non-empty) and an empty `Id`, and (ii) the pending authorization with `Id = s`
whose `RemoteState`, `RemoteSecret`, `RemoteCallback`, type and `Version` are
the values given to `Request`. -/
theorem C8_Request_then_Authorize_round_trip (lib : Lib) (o : Oauth2) (w : World)
    (s remoteState remoteSecret remoteCallback : String) (version : Int)
    (conf : OAuth2Config) (r : RequestResult) (w1 : World) (code : String) (t : OAuth2Token)
    (hc : o.conf = some conf)
    (hreq : o.Request lib w s remoteState remoteSecret remoteCallback version = some (r, w1))
    (hok : r.err = none)
    (hx : lib.Exchange conf w1.exchanges code = Except.ok t)
    (hacc : t.AccessToken ≠ "") (href : t.RefreshToken ≠ "") :
    ∃ acct w2, o.Authorize lib w1 s code =
        some ({ acct := some acct,
                tokn := { Id := s, RemoteCallback := remoteCallback,
                          RemoteState := remoteState, RemoteSecret := remoteSecret,
                          Typ := o.Typ, Version := version },
                err := none }, w2) ∧
      acct = { Id := "", Typ := o.Typ, Oauth2AccTokn := t.AccessToken,
               Oauth2RefTokn := t.RefreshToken, Oauth2Exp := t.Expiry } ∧
      acct.Oauth2AccTokn ≠ "" ∧ acct.Oauth2RefTokn ≠ "" ∧
      w2.db = w1.db := by
  obtain ⟨conf1, hc1, _, hany, hw1⟩ :=
    Request_success_inv lib o w s remoteState remoteSecret remoteCallback version r w1 hreq hok
  have hf : w1.db.tokens.find? (fun t => t.Id == s) =
      some { Id := s, RemoteCallback := remoteCallback, RemoteState := remoteState,
             RemoteSecret := remoteSecret, Typ := o.Typ, Version := version } := by
    rw [hw1]
    exact find_append_new w.db.tokens
      { Id := s, RemoteCallback := remoteCallback, RemoteState := remoteState,
        RemoteSecret := remoteSecret, Typ := o.Typ, Version := version } hany
  exact ⟨_, _, Authorize_of_accepted lib o w1 s code conf _ t hf hc hx, rfl, hacc, href, rfl⟩

theorem C8_Request_then_Authorize_round_trip_witness :
    ∃ acct w2, demoProvider.Config.Authorize demoLib
        { demoWorld with db := { demoWorld.db with tokens := [demoPending,
            { Id := "s2", RemoteCallback := "https://app/cb2", RemoteState := "rs2",
              RemoteSecret := "sec2", Typ := "google", Version := 2 }] } } "s2" "good" =
        some ({ acct := some acct,
                tokn := { Id := "s2", RemoteCallback := "https://app/cb2",
                          RemoteState := "rs2", RemoteSecret := "sec2",
                          Typ := demoProvider.Config.Typ, Version := 2 },
                err := none }, w2) ∧
      acct = { Id := "", Typ := demoProvider.Config.Typ, Oauth2AccTokn := "acc-1",
               Oauth2RefTokn := "ref-1", Oauth2Exp := 2000 } ∧
      acct.Oauth2AccTokn ≠ "" ∧ acct.Oauth2RefTokn ≠ "" ∧
      w2.db = ({ demoWorld with db := { demoWorld.db with tokens := [demoPending,
            { Id := "s2", RemoteCallback := "https://app/cb2", RemoteState := "rs2",
              RemoteSecret := "sec2", Typ := "google", Version := 2 }] } } : World).db :=
  C8_Request_then_Authorize_round_trip demoLib demoProvider.Config demoWorld
    "s2" "rs2" "sec2" "https://app/cb2" 2
    { ClientID := "id", ClientSecret := "secret", RedirectURL := "https://auth/callback",
      Scopes := ["email"], AuthURL := "https://provider/auth",
      TokenURL := "https://provider/token" }
    { url := "https://provider/auth?state=s2", err := none }
    { demoWorld with db := { demoWorld.db with tokens := [demoPending,
        { Id := "s2", RemoteCallback := "https://app/cb2", RemoteState := "rs2",
          RemoteSecret := "sec2", Typ := "google", Version := 2 }] } }
    "good"
    { AccessToken := "acc-1", TokenType := "Bearer", RefreshToken := "ref-1", Expiry := 2000 }
    rfl (by decide) rfl rfl (by decide) (by decide)

end Oauth
